import Mathlib

/-!
Shallow embedding of `src/trunk/tinyNET/src/turn/tnet_turn.c` (doubango TURN
client core): the allocation record and NAT-context data model, the request
builder, the logical round `tnet_turn_send_allocate` (with its single
authentication retry), and the lifecycle operations `tnet_turn_allocate` /
`tnet_turn_unallocate`.

The external collaborators (message layer, transport, digest) are modelled as
plain data: a response is a record of the fields the code extracts from it, and
the random-string-plus-MD5 transaction-id generator is an oracle `txid : Nat →
Nat` giving the digest produced by the n-th builder invocation of a round.
The in-place mutation of the C code is modelled by explicit state passing; the
process-global `static __unique_id` counter is threaded explicitly.
-/

/-- Transport kind of a local socket. The C `tnet_socket_type_t` is a rich
enum; the code only ever queries it through `TNET_SOCKET_TYPE_IS_DGRAM`, so
only the datagram/stream distinction is modelled. -/
inductive tnet_socket_type_t where
  | udp : tnet_socket_type_t
  | tcp : tnet_socket_type_t
deriving DecidableEq

/-- Macro `TNET_SOCKET_TYPE_IS_DGRAM`: true exactly for datagram sockets. -/
def TNET_SOCKET_TYPE_IS_DGRAM : tnet_socket_type_t → Bool
  | .udp => true
  | .tcp => false

/-- Protocol numbers passed to the requested-transport attribute. -/
inductive tnet_proto_t where
  | TNET_PROTO_UDP : tnet_proto_t
  | TNET_PROTO_TCP : tnet_proto_t
deriving DecidableEq

/-- STUN message types used by this file (line 70). -/
inductive tnet_stun_message_type_t where
  | stun_allocate_request : tnet_stun_message_type_t
  | stun_refresh_request : tnet_stun_message_type_t
deriving DecidableEq

/-- Typed attribute objects attached to a request (lines 82-105). -/
inductive tnet_stun_attribute_t where
  | software (value : String) : tnet_stun_attribute_t
  | reqtrans (protocol : tnet_proto_t) : tnet_stun_attribute_t
  | lifetime (value : Nat) : tnet_stun_attribute_t
  | even_port (enabled : Bool) : tnet_stun_attribute_t
deriving DecidableEq

/-- An outgoing STUN/TURN request message, with the fields the code writes
(lines 61-105). `transaction_id` holds the digest bytes as one value. -/
structure tnet_stun_request_t where
  username : Option String
  password : Option String
  fingerprint : Bool
  integrity : Bool
  dontfrag : Bool
  realm : Option String
  nonce : Option String
  type : tnet_stun_message_type_t
  transaction_id : Nat
  attributes : List tnet_stun_attribute_t
deriving DecidableEq

/-- A decoded response, holding exactly the fields the code extracts through
the message-layer getters (lines 112-116, 145). `error_code` is the C `short`;
`lifetime` is the C `int32_t` (may be negative, e.g. -1 for "absent"). -/
structure tnet_stun_response_t where
  is_error : Bool
  error_code : Int
  realm : Option String
  nonce : Option String
  lifetime : Int
deriving DecidableEq

/-- Predicate `TNET_STUN_RESPONSE_IS_ERROR` (message layer, external). -/
def TNET_STUN_RESPONSE_IS_ERROR (r : tnet_stun_response_t) : Bool := r.is_error

/-- Getter `tnet_stun_message_get_errorcode` (message layer, external). -/
def tnet_stun_message_get_errorcode (r : tnet_stun_response_t) : Int := r.error_code

/-- Getter `tnet_stun_message_get_realm` (message layer, external; NULL = `none`). -/
def tnet_stun_message_get_realm (r : tnet_stun_response_t) : Option String := r.realm

/-- Getter `tnet_stun_message_get_nonce` (message layer, external; NULL = `none`). -/
def tnet_stun_message_get_nonce (r : tnet_stun_response_t) : Option String := r.nonce

/-- Getter `tnet_stun_message_get_lifetime` (message layer, external). -/
def tnet_stun_message_get_lifetime (r : tnet_stun_response_t) : Int := r.lifetime

/-- One TURN allocation record (`tnet_turn_allocation_t`, declared in the
header `tnet_turn.h`). Field set follows the fields this file reads or writes;
the `server` sockaddr built by `tnet_sockaddr_init` is kept as the
address/port pair it is built from. All pointer-valued strings are `Option`;
the zero-initialisation done by the object framework makes them `none` (and
`active` false) at creation. -/
structure tnet_turn_allocation_t where
  id : Nat
  localFD : Int
  socket_type : tnet_socket_type_t
  server_address : String
  server_port : Nat
  username : Option String
  password : Option String
  realm : Option String
  nonce : Option String
  timeout : Nat
  relay_address : Option String
  software : Option String
  active : Bool
deriving DecidableEq

/-- The NAT context (`tnet_nat_context_t`, external collaborator): server
coordinates, credentials, feature toggles, and the registry of active
allocations (`context->allocations`, a `tsk_list`). -/
structure tnet_nat_context_t where
  socket_type : tnet_socket_type_t
  server_address : String
  server_port : Nat
  username : Option String
  password : Option String
  software : Option String
  timeout : Nat
  enable_fingerprint : Bool
  enable_integrity : Bool
  enable_dontfrag : Bool
  enable_evenport : Bool
  allocations : List tnet_turn_allocation_t
deriving DecidableEq

/-- 32-bit byte-order reversal. On a little-endian host both `ntohl` and
`htonl` are this function; on a big-endian host both are the identity. In
either case the two are one and the same bijection, which is why the call to
`ntohl` (line 97) also performs the host-to-network conversion. -/
def bswap32 (x : Nat) : Nat :=
  let x := x % 2 ^ 32
  (x % 2 ^ 8) * 2 ^ 24 + (x / 2 ^ 8 % 2 ^ 8) * 2 ^ 16 +
    (x / 2 ^ 16 % 2 ^ 8) * 2 ^ 8 + x / 2 ^ 24

/-- Function `ntohl`, as called at line 97 (little-endian host model). -/
def ntohl (x : Nat) : Nat := bswap32 x

/-- Function `htonl`, the host-to-network conversion (little-endian host model);
identical, as a function, to `ntohl` on every host. -/
def htonl (x : Nat) : Nat := bswap32 x

/-- Environment of one logical round: `txid n` is the transaction id the
random-string + MD5 digest produces at the n-th builder invocation of the
round (lines 72-80); `responses n` is what `tnet_stun_send_unreliably`
returns for the n-th send of the round (`none` = retransmissions exhausted
with no reply). -/
structure TurnEnv where
  txid : Nat → Nat
  responses : Nat → Option tnet_stun_response_t

/-- The request construction of `tnet_turn_send_allocate`, lines 61-105:
message created with the context credentials, toggles copied, the cached
realm/nonce of the record copied, fresh transaction id, and the four attributes
appended in source order (software if configured, requested-transport,
lifetime through `ntohl`, even-port). -/
def tnet_turn_send_allocate_build_request (env : TurnEnv) (attempt : Nat)
    (context : tnet_nat_context_t) (allocation : tnet_turn_allocation_t) :
    tnet_stun_request_t :=
  { username := context.username
    password := context.password
    fingerprint := context.enable_fingerprint
    integrity := context.enable_integrity
    dontfrag := context.enable_dontfrag
    realm := allocation.realm
    nonce := allocation.nonce
    type := if allocation.active then .stun_refresh_request else .stun_allocate_request
    transaction_id := env.txid attempt
    attributes :=
      (match allocation.software with
       | some s => [tnet_stun_attribute_t.software s]
       | none => []) ++
      [ .reqtrans (if TNET_SOCKET_TYPE_IS_DGRAM allocation.socket_type then
                     .TNET_PROTO_UDP else .TNET_PROTO_TCP),
        .lifetime (ntohl allocation.timeout),
        .even_port context.enable_evenport ] }

/-- Outcome of one logical round: the C return value, the final state of the
record, the requests built (in order; the C frees each before returning), and
the requests actually handed to `tnet_stun_send_unreliably`. -/
structure RoundResult where
  ret : Int
  allocation : tnet_turn_allocation_t
  requests : List tnet_stun_request_t
  sends : List tnet_stun_request_t
deriving DecidableEq

/-- Function `tnet_turn_send_allocate` (lines 56-163): one logical round starting at
attempt index `attempt`. Builds a request; for a datagram record sends it and
classifies the response: no response → -4; 401 with realm and nonce and no
cached nonce → cache both, free the messages, and tail-call itself (the single
retry); 401 with a cached nonce → -3; any other error → -2; non-error → 0,
adopting a non-negative granted lifetime as the new timeout. For a
non-datagram record no send happens and the initial `ret = -1` is returned.
Termination: the tail call is only reached when the cached nonce was NULL,
and it installs a non-NULL nonce. -/
def tnet_turn_send_allocate (env : TurnEnv) (context : tnet_nat_context_t)
    (allocation : tnet_turn_allocation_t) (attempt : Nat) : RoundResult :=
  let request := tnet_turn_send_allocate_build_request env attempt context allocation
  if TNET_SOCKET_TYPE_IS_DGRAM allocation.socket_type then
    match env.responses attempt with
    | some response =>
      if TNET_STUN_RESPONSE_IS_ERROR response then
        if h401 : tnet_stun_message_get_errorcode response = 401 ∧
            (tnet_stun_message_get_realm response).isSome ∧
            (tnet_stun_message_get_nonce response).isSome then
          if hn : allocation.nonce = none then
            let allocation' := { allocation with
              nonce := tnet_stun_message_get_nonce response,
              realm := tnet_stun_message_get_realm response }
            let rec_result := tnet_turn_send_allocate env context allocation' (attempt + 1)
            { rec_result with
              requests := request :: rec_result.requests,
              sends := request :: rec_result.sends }
          else
            { ret := -3, allocation := allocation,
              requests := [request], sends := [request] }
        else
          { ret := -2, allocation := allocation,
            requests := [request], sends := [request] }
      else
        if 0 ≤ tnet_stun_message_get_lifetime response then
          { ret := 0,
            allocation := { allocation with
              timeout := (tnet_stun_message_get_lifetime response).toNat },
            requests := [request], sends := [request] }
        else
          { ret := 0, allocation := allocation,
            requests := [request], sends := [request] }
    | none =>
      { ret := -4, allocation := allocation,
        requests := [request], sends := [request] }
  else
    { ret := -1, allocation := allocation,
      requests := [request], sends := [] }
termination_by (if allocation.nonce = none then 1 else 0)
decreasing_by
  simp only [hn, Option.isSome_iff_exists] at *
  obtain ⟨_, _, s, hs⟩ := h401
  simp [hs]

/-- Modelled from the spec: the constant `TNET_TURN_INVALID_ALLOCATION_ID`
lives in the header `tnet_turn.h`, which is not among the sources here; the
spec says record ids are "never zero" and failures return "an invalid-id
sentinel", so the sentinel is the one value no record ever carries. -/
def TNET_TURN_INVALID_ALLOCATION_ID : Nat := 0

/-- Function `tnet_turn_allocation_create` (lines 273-298): the object constructor.
Takes the current value of the process-global `static __unique_id` counter and
returns its new value together with the fresh record: `id = ++__unique_id`,
fields copied from the arguments, `timeout = 600`; `realm`, `nonce`,
`relay_address`, `software` and `active` are left zero-initialised. The C
counter is a fixed-width integer wide enough that it never wraps in a process
lifetime; it is modelled as `Nat`. -/
def tnet_turn_allocation_create (counter : Nat) (localFD : Int)
    (socket_type : tnet_socket_type_t) (server_address : String)
    (server_port : Nat) (username password : Option String) :
    Nat × tnet_turn_allocation_t :=
  let id := counter + 1
  (id,
   { id := id
     localFD := localFD
     socket_type := socket_type
     server_address := server_address
     server_port := server_port
     username := username
     password := password
     realm := none
     nonce := none
     timeout := 600
     relay_address := none
     software := none
     active := false })

/-- Outcome of `tnet_turn_allocate`: the returned id, the new value of the
global id counter, the context after the call (its registry possibly
extended), the record handed to `TSK_OBJECT_SAFE_FREE` if any, and the
requests built by the round (observability of the exchange). -/
structure AllocateResult where
  id : Nat
  counter : Nat
  context : Option tnet_nat_context_t
  freed : Option tnet_turn_allocation_t
  requests : List tnet_stun_request_t
deriving DecidableEq

/-- Function `tnet_turn_allocate` (lines 165-190): on a non-NULL context, creates a
record seeded from the context (note the C passes `context->socket_type` to
the constructor, not the `socket_type` parameter), copies the context
software banner onto it, and runs one logical round. Round failure frees the
record and returns the invalid id; success marks the record active, appends
it to the registry, and returns its id. -/
def tnet_turn_allocate (env : TurnEnv) (counter : Nat)
    (nat_context : Option tnet_nat_context_t) (localFD : Int)
    (socket_type : tnet_socket_type_t) : AllocateResult :=
  match nat_context with
  | some context =>
    let created := tnet_turn_allocation_create counter localFD
      context.socket_type context.server_address context.server_port
      context.username context.password
    let allocation := { created.2 with software := context.software }
    let r := tnet_turn_send_allocate env context allocation 0
    if r.ret ≠ 0 then
      { id := TNET_TURN_INVALID_ALLOCATION_ID
        counter := created.1
        context := some context
        freed := some r.allocation
        requests := r.requests }
    else
      { id := r.allocation.id
        counter := created.1
        context := some { context with
          allocations := context.allocations ++ [{ r.allocation with active := true }] }
        freed := none
        requests := r.requests }
  | none =>
    { id := TNET_TURN_INVALID_ALLOCATION_ID, counter := counter,
      context := none, freed := none, requests := [] }

/-- Outcome of `tnet_turn_unallocate`: the C return value, the context after
the call, the final state of the record object, and the requests built by the
round. -/
structure UnallocResult where
  ret : Int
  context : Option tnet_nat_context_t
  allocation : Option tnet_turn_allocation_t
  requests : List tnet_stun_request_t
deriving DecidableEq

/-- Function `tnet_turn_unallocate` (lines 192-216): on non-NULL arguments, saves the
timeout of the record, sets it to 0, and runs one logical round. Failure restores
the saved timeout onto the record and returns -1; success removes the record
from the registry and returns 0. In C the registry holds the very object the
caller passes, so the field mutations performed through that pointer
are visible in the registry entry; with a value registry this aliasing is
rendered by rewriting the entry carrying the (unique) id of the record on failure,
and removal (`tsk_list_remove_item_by_data`, pointer identity) by filtering
that id out on success. -/
def tnet_turn_unallocate (env : TurnEnv)
    (nat_context : Option tnet_nat_context_t)
    (allocation : Option tnet_turn_allocation_t) : UnallocResult :=
  match nat_context, allocation with
  | some context, some alloc =>
    let timeout := alloc.timeout
    let r := tnet_turn_send_allocate env context { alloc with timeout := 0 } 0
    if r.ret ≠ 0 then
      let restored := { r.allocation with timeout := timeout }
      { ret := -1
        context := some { context with
          allocations := context.allocations.map
            (fun a => if a.id = restored.id then restored else a) }
        allocation := some restored
        requests := r.requests }
    else
      { ret := 0
        context := some { context with
          allocations := context.allocations.filter
            (fun a => a.id ≠ r.allocation.id) }
        allocation := some r.allocation
        requests := r.requests }
  | _, _ =>
    { ret := -1, context := nat_context, allocation := allocation, requests := [] }

/-- One call of a sequence of Allocate invocations: its round environment and
the caller-chosen arguments. -/
structure AllocCall where
  env : TurnEnv
  localFD : Int
  socket_type : tnet_socket_type_t

/-- A sequence of `tnet_turn_allocate` calls on one context, threading the
process-global id counter and the context through; returns the ids the calls
returned, in order. -/
def runAllocates (counter : Nat) (context : tnet_nat_context_t) :
    List AllocCall → List Nat
  | [] => []
  | call :: rest =>
    let r := tnet_turn_allocate call.env counter (some context) call.localFD
      call.socket_type
    r.id :: runAllocates r.counter ((r.context).getD context) rest

/-- The first lifetime attribute attached to a request, if any. -/
def request_lifetime_attr (r : tnet_stun_request_t) : Option Nat :=
  r.attributes.findSome? fun a =>
    match a with
    | .lifetime v => some v
    | _ => none

/-- Equality of two records on every field except `timeout`, `realm` and
`nonce` — the frame a logical round is allowed to touch. -/
def SameFrame (a b : tnet_turn_allocation_t) : Prop :=
  b.id = a.id ∧ b.localFD = a.localFD ∧ b.socket_type = a.socket_type ∧
  b.server_address = a.server_address ∧ b.server_port = a.server_port ∧
  b.username = a.username ∧ b.password = a.password ∧
  b.software = a.software ∧ b.active = a.active ∧
  b.relay_address = a.relay_address

instance (a b : tnet_turn_allocation_t) : Decidable (SameFrame a b) := by
  unfold SameFrame; infer_instance

def resp401 : tnet_stun_response_t :=
  { is_error := true, error_code := 401, realm := some "example.org",
    nonce := some "abc123", lifetime := -1 }

def respOk : tnet_stun_response_t :=
  { is_error := false, error_code := 0, realm := none, nonce := none,
    lifetime := 3600 }

def envB : TurnEnv :=
  { txid := fun n => n + 10
    responses := fun n => if n = 0 then some resp401 else some respOk }

def envC : TurnEnv :=
  { txid := fun n => n + 10
    responses := fun _ => some resp401 }

def ctx0 : tnet_nat_context_t :=
  { socket_type := .udp, server_address := "turn.example.org", server_port := 3478,
    username := some "user", password := some "pass", software := some "doubango",
    timeout := 600, enable_fingerprint := false, enable_integrity := true,
    enable_dontfrag := false, enable_evenport := false, allocations := [] }

def alloc0 : tnet_turn_allocation_t :=
  { id := 1, localFD := 5, socket_type := .udp,
    server_address := "turn.example.org", server_port := 3478,
    username := some "user", password := some "pass",
    realm := none, nonce := none, timeout := 600,
    relay_address := none, software := some "doubango", active := false }

def respNeg : tnet_stun_response_t :=
  { is_error := false, error_code := 0, realm := none, nonce := none,
    lifetime := -1 }

def envOk : TurnEnv :=
  { txid := fun n => n + 10, responses := fun _ => some respOk }

def envNeg : TurnEnv :=
  { txid := fun n => n + 10, responses := fun _ => some respNeg }

def allocStale : tnet_turn_allocation_t :=
  { alloc0 with realm := some "realm0", nonce := some "nonce0" }

def allocReg : tnet_turn_allocation_t :=
  { alloc0 with active := true }

def allocTcp : tnet_turn_allocation_t :=
  { alloc0 with socket_type := .tcp }

def ctxReg : tnet_nat_context_t :=
  { ctx0 with allocations := [allocReg] }

theorem sameFrame_refl (a : tnet_turn_allocation_t) : SameFrame a a := by
  simp [SameFrame]

theorem sameFrame_realm_nonce (a : tnet_turn_allocation_t) (r n : Option String) :
    SameFrame a { a with realm := r, nonce := n } := by
  simp [SameFrame]

theorem sameFrame_timeout (a : tnet_turn_allocation_t) (t : Nat) :
    SameFrame a { a with timeout := t } := by
  simp [SameFrame]

theorem sameFrame_trans {a b c : tnet_turn_allocation_t}
    (h1 : SameFrame a b) (h2 : SameFrame b c) : SameFrame a c := by
  obtain ⟨e1, e2, e3, e4, e5, e6, e7, e8, e9, e10⟩ := h1
  obtain ⟨f1, f2, f3, f4, f5, f6, f7, f8, f9, f10⟩ := h2
  exact ⟨f1.trans e1, f2.trans e2, f3.trans e3, f4.trans e4, f5.trans e5,
    f6.trans e6, f7.trans e7, f8.trans e8, f9.trans e9, f10.trans e10⟩

theorem tnet_turn_send_allocate_frame (env : TurnEnv) (ctx : tnet_nat_context_t)
    (alloc : tnet_turn_allocation_t) (n : Nat) :
    SameFrame alloc (tnet_turn_send_allocate env ctx alloc n).allocation := by
  induction alloc, n using tnet_turn_send_allocate.induct env ctx with
  | case1 alloc n hd resp hresp herr h401 hn alloc2 ih =>
    rw [tnet_turn_send_allocate.eq_def]
    simp only [hd, hresp, herr, if_true, dif_pos h401, dif_pos hn]
    exact sameFrame_trans (sameFrame_realm_nonce alloc _ _) ih
  | case2 alloc n hd resp hresp herr h401 hn =>
    rw [tnet_turn_send_allocate.eq_def]
    simp only [hd, hresp, herr, if_true, dif_pos h401, dif_neg hn]
    exact sameFrame_refl alloc
  | case3 alloc n hd resp hresp herr h401 =>
    rw [tnet_turn_send_allocate.eq_def]
    simp only [hd, hresp, herr, if_true, dif_neg h401]
    exact sameFrame_refl alloc
  | case4 alloc n hd resp hresp herr hlt =>
    rw [tnet_turn_send_allocate.eq_def]
    simp only [hd, hresp, Bool.not_eq_true] at *
    simp only [herr, if_false, if_pos hlt, hd, if_true]
    exact sameFrame_timeout alloc _
  | case5 alloc n hd resp hresp herr hlt =>
    rw [tnet_turn_send_allocate.eq_def]
    simp only [hd, hresp, Bool.not_eq_true] at *
    simp only [herr, if_false, if_neg hlt, hd, if_true]
    exact sameFrame_refl alloc
  | case6 alloc n hd hresp =>
    rw [tnet_turn_send_allocate.eq_def]
    simp only [hd, hresp, if_true]
    exact sameFrame_refl alloc
  | case7 alloc n hd =>
    rw [tnet_turn_send_allocate.eq_def]
    simp only [Bool.not_eq_true] at hd
    simp only [hd, if_false]
    exact sameFrame_refl alloc

theorem tnet_turn_send_allocate_requests_head (env : TurnEnv)
    (ctx : tnet_nat_context_t) (alloc : tnet_turn_allocation_t) (n : Nat) :
    (tnet_turn_send_allocate env ctx alloc n).requests.head? =
      some (tnet_turn_send_allocate_build_request env n ctx alloc) := by
  rw [tnet_turn_send_allocate.eq_def]
  repeat' split
  all_goals rfl

theorem tnet_turn_send_allocate_dgram_ret (env : TurnEnv)
    (ctx : tnet_nat_context_t) (alloc : tnet_turn_allocation_t) (n : Nat) :
    TNET_SOCKET_TYPE_IS_DGRAM alloc.socket_type = true →
      (tnet_turn_send_allocate env ctx alloc n).ret ≠ -1 := by
  induction alloc, n using tnet_turn_send_allocate.induct env ctx with
  | case1 alloc n hd resp hresp herr h401 hn alloc2 ih =>
    intro _
    rw [tnet_turn_send_allocate.eq_def]
    simp only [hd, hresp, herr, if_true, dif_pos h401, dif_pos hn]
    exact ih hd
  | case2 alloc n hd resp hresp herr h401 hn =>
    intro _
    rw [tnet_turn_send_allocate.eq_def]
    simp only [hd, hresp, herr, if_true, dif_pos h401, dif_neg hn]
    simp
  | case3 alloc n hd resp hresp herr h401 =>
    intro _
    rw [tnet_turn_send_allocate.eq_def]
    simp only [hd, hresp, herr, if_true, dif_neg h401]
    simp
  | case4 alloc n hd resp hresp herr hlt =>
    intro _
    rw [tnet_turn_send_allocate.eq_def]
    simp only [Bool.not_eq_true] at herr
    simp [hd, hresp, herr, hlt]
  | case5 alloc n hd resp hresp herr hlt =>
    intro _
    rw [tnet_turn_send_allocate.eq_def]
    simp only [Bool.not_eq_true] at herr
    simp [hd, hresp, herr, hlt]
  | case6 alloc n hd hresp =>
    intro _
    rw [tnet_turn_send_allocate.eq_def]
    simp only [hd, hresp, if_true]
    simp
  | case7 alloc n hd =>
    intro h
    exact absurd h hd

theorem tnet_turn_send_allocate_retry_bound (env : TurnEnv)
    (ctx : tnet_nat_context_t) (alloc : tnet_turn_allocation_t) (n : Nat) :
    (tnet_turn_send_allocate env ctx alloc n).requests.length ≤ 2 ∧
      (alloc.nonce ≠ none →
        (tnet_turn_send_allocate env ctx alloc n).requests.length = 1) := by
  induction alloc, n using tnet_turn_send_allocate.induct env ctx with
  | case1 alloc n hd resp hresp herr h401 hn alloc2 ih =>
    rw [tnet_turn_send_allocate.eq_def]
    simp only [hd, hresp, herr, if_true, dif_pos h401, dif_pos hn]
    have h2 : alloc2.nonce ≠ none := by
      obtain ⟨_, _, hsome⟩ := h401
      simp only [Option.isSome_iff_exists] at hsome
      obtain ⟨s, hs⟩ := hsome
      simp [alloc2, hs]
    have hlen : (tnet_turn_send_allocate env ctx alloc2 (n + 1)).requests.length = 1 :=
      ih.2 h2
    constructor
    · simp only [List.length_cons, hlen]
      omega
    · intro hcontra
      exact absurd hn hcontra
  | case2 alloc n hd resp hresp herr h401 hn =>
    rw [tnet_turn_send_allocate.eq_def]
    simp only [hd, hresp, herr, if_true, dif_pos h401, dif_neg hn]
    simp
  | case3 alloc n hd resp hresp herr h401 =>
    rw [tnet_turn_send_allocate.eq_def]
    simp only [hd, hresp, herr, if_true, dif_neg h401]
    simp
  | case4 alloc n hd resp hresp herr hlt =>
    rw [tnet_turn_send_allocate.eq_def]
    simp only [Bool.not_eq_true] at herr
    simp only [hd, hresp, herr, if_false, if_pos hlt, if_true]
    simp
  | case5 alloc n hd resp hresp herr hlt =>
    rw [tnet_turn_send_allocate.eq_def]
    simp only [Bool.not_eq_true] at herr
    simp only [hd, hresp, herr, if_false, if_neg hlt, if_true]
    simp
  | case6 alloc n hd hresp =>
    rw [tnet_turn_send_allocate.eq_def]
    simp only [hd, hresp, if_true]
    simp
  | case7 alloc n hd =>
    rw [tnet_turn_send_allocate.eq_def]
    simp only [Bool.not_eq_true] at hd
    simp only [hd, if_false]
    simp

theorem tnet_turn_send_allocate_keeps_creds (env : TurnEnv)
    (ctx : tnet_nat_context_t) (alloc : tnet_turn_allocation_t) (n : Nat)
    (h : alloc.nonce ≠ none) :
    (tnet_turn_send_allocate env ctx alloc n).allocation.realm = alloc.realm ∧
      (tnet_turn_send_allocate env ctx alloc n).allocation.nonce = alloc.nonce := by
  rw [tnet_turn_send_allocate.eq_def]
  repeat' split
  all_goals simp_all

theorem tnet_turn_send_allocate_single (env : TurnEnv) (ctx : tnet_nat_context_t)
    (alloc : tnet_turn_allocation_t) (n : Nat) (h : alloc.nonce ≠ none) :
    (tnet_turn_send_allocate env ctx alloc n).requests =
      [tnet_turn_send_allocate_build_request env n ctx alloc] := by
  have h1 := (tnet_turn_send_allocate_retry_bound env ctx alloc n).2 h
  have h2 := tnet_turn_send_allocate_requests_head env ctx alloc n
  obtain ⟨a, ha⟩ := List.length_eq_one.mp h1
  rw [ha] at h2 ⊢
  simp only [List.head?_cons, Option.some.injEq] at h2
  rw [h2]

/-- C5: every logical round whose (first) response is not an error is
classified Success (returns 0); a granted lifetime that is non-negative
overwrites the stored timeout with exactly that value, and a negative granted
lifetime leaves the stored timeout unchanged. -/
theorem turn_round_success_lifetime (env : TurnEnv) (ctx : tnet_nat_context_t)
    (alloc : tnet_turn_allocation_t) (resp : tnet_stun_response_t)
    (hd : TNET_SOCKET_TYPE_IS_DGRAM alloc.socket_type = true)
    (hresp : env.responses 0 = some resp)
    (herr : TNET_STUN_RESPONSE_IS_ERROR resp = false) :
    (tnet_turn_send_allocate env ctx alloc 0).ret = 0 ∧
    (0 ≤ tnet_stun_message_get_lifetime resp →
      (tnet_turn_send_allocate env ctx alloc 0).allocation.timeout =
        (tnet_stun_message_get_lifetime resp).toNat) ∧
    (tnet_stun_message_get_lifetime resp < 0 →
      (tnet_turn_send_allocate env ctx alloc 0).allocation.timeout = alloc.timeout) := by
  rw [tnet_turn_send_allocate.eq_def]
  simp only [hd, hresp, herr, if_true, Bool.false_eq_true, if_false]
  refine ⟨?_, ?_, ?_⟩
  · split <;> rfl
  · intro hge
    rw [if_pos hge]
  · intro hneg
    rw [if_neg (show ¬ 0 ≤ tnet_stun_message_get_lifetime resp by omega)]

/-- C7: a logical round on a stream-kind (non-datagram) record still builds
the request but performs no send and returns -1, the unsupported-transport
kind; a round on a datagram record never returns -1, so the kind is
distinguishable from Success (0), Rejected (-2), StaleCredentials (-3) and
NoResponse (-4). -/
theorem turn_round_unsupported_transport (env : TurnEnv) (ctx : tnet_nat_context_t)
    (alloc : tnet_turn_allocation_t) (n : Nat) :
    (TNET_SOCKET_TYPE_IS_DGRAM alloc.socket_type = false →
      tnet_turn_send_allocate env ctx alloc n =
        { ret := -1, allocation := alloc,
          requests := [tnet_turn_send_allocate_build_request env n ctx alloc],
          sends := [] }) ∧
    (TNET_SOCKET_TYPE_IS_DGRAM alloc.socket_type = true →
      (tnet_turn_send_allocate env ctx alloc n).ret ≠ -1) := by
  constructor
  · intro hs
    rw [tnet_turn_send_allocate.eq_def]
    simp only [hs, Bool.false_eq_true, if_false]
  · intro hd
    exact tnet_turn_send_allocate_dgram_ret env ctx alloc n hd

/-- C8: every request built by the request builder carries a lifetime
attribute whose value is the desired timeout of the record converted to
network byte order (`htonl`; the call written in the source, `ntohl`, is the
same byte-reversal function). -/
theorem turn_request_lifetime_network_order (env : TurnEnv) (attempt : Nat)
    (ctx : tnet_nat_context_t) (alloc : tnet_turn_allocation_t) :
    request_lifetime_attr (tnet_turn_send_allocate_build_request env attempt ctx alloc) =
      some (htonl alloc.timeout) := by
  cases hs : alloc.software <;>
    simp [request_lifetime_attr, tnet_turn_send_allocate_build_request, hs,
      List.findSome?, ntohl, htonl]

/-- C9: the kind of every built request is allocate exactly when the record
is not yet active, and refresh otherwise; consequently a Deallocate round on
an active record first sends a refresh-kind request whose lifetime attribute
is 0. -/
theorem turn_request_kind (env : TurnEnv) (attempt : Nat) (ctx : tnet_nat_context_t)
    (alloc : tnet_turn_allocation_t) :
    ((tnet_turn_send_allocate_build_request env attempt ctx alloc).type =
        tnet_stun_message_type_t.stun_allocate_request ↔ alloc.active = false) ∧
    (alloc.active = true →
      (tnet_turn_unallocate env (some ctx) (some alloc)).requests.head? =
        some (tnet_turn_send_allocate_build_request env 0 ctx { alloc with timeout := 0 }) ∧
      (tnet_turn_send_allocate_build_request env 0 ctx { alloc with timeout := 0 }).type =
        tnet_stun_message_type_t.stun_refresh_request ∧
      request_lifetime_attr (tnet_turn_send_allocate_build_request env 0 ctx
        { alloc with timeout := 0 }) = some 0) := by
  constructor
  · cases ha : alloc.active <;>
      simp [tnet_turn_send_allocate_build_request, ha]
  · intro ha
    have hreq : (tnet_turn_unallocate env (some ctx) (some alloc)).requests =
        (tnet_turn_send_allocate env ctx { alloc with timeout := 0 } 0).requests := by
      rw [tnet_turn_unallocate]
      split <;> rfl
    refine ⟨?_, ?_, ?_⟩
    · rw [hreq]
      exact tnet_turn_send_allocate_requests_head env ctx { alloc with timeout := 0 } 0
    · simp [tnet_turn_send_allocate_build_request, ha]
    · have := turn_request_lifetime_network_order env 0 ctx { alloc with timeout := 0 }
      simpa [htonl, bswap32] using this

/-- C1: in every logical round on a datagram record, if the first response is
a 401 carrying both realm and nonce and the record holds no cached nonce, then
exactly one retry happens: the round builds exactly the first request and one
retried request, the retried request is built only after realm/nonce are
cached onto the record, and (the digest oracle yielding distinct values at the
two draws) its transaction id differs from the first one; if a 401 with
realm/nonce arrives while the record already holds a nonce, the round returns
-3 (StaleCredentials) having built no further request; and no round ever
builds more than two requests, i.e. performs more than one retry. -/
theorem turn_round_single_retry (env : TurnEnv) (ctx : tnet_nat_context_t)
    (alloc : tnet_turn_allocation_t)
    (hd : TNET_SOCKET_TYPE_IS_DGRAM alloc.socket_type = true) :
    (∀ resp realmS nonceS,
      env.responses 0 = some resp →
      TNET_STUN_RESPONSE_IS_ERROR resp = true →
      tnet_stun_message_get_errorcode resp = 401 →
      tnet_stun_message_get_realm resp = some realmS →
      tnet_stun_message_get_nonce resp = some nonceS →
      alloc.nonce = none →
      env.txid 1 ≠ env.txid 0 →
      (tnet_turn_send_allocate env ctx alloc 0).requests =
        [tnet_turn_send_allocate_build_request env 0 ctx alloc,
         tnet_turn_send_allocate_build_request env 1 ctx
           { alloc with realm := some realmS, nonce := some nonceS }] ∧
      (tnet_turn_send_allocate env ctx alloc 0).allocation.realm = some realmS ∧
      (tnet_turn_send_allocate env ctx alloc 0).allocation.nonce = some nonceS ∧
      (tnet_turn_send_allocate_build_request env 1 ctx
          { alloc with realm := some realmS, nonce := some nonceS }).transaction_id ≠
        (tnet_turn_send_allocate_build_request env 0 ctx alloc).transaction_id) ∧
    (∀ resp,
      env.responses 0 = some resp →
      TNET_STUN_RESPONSE_IS_ERROR resp = true →
      tnet_stun_message_get_errorcode resp = 401 →
      (tnet_stun_message_get_realm resp).isSome = true →
      (tnet_stun_message_get_nonce resp).isSome = true →
      alloc.nonce ≠ none →
      (tnet_turn_send_allocate env ctx alloc 0).ret = -3 ∧
      (tnet_turn_send_allocate env ctx alloc 0).requests.length = 1) ∧
    (tnet_turn_send_allocate env ctx alloc 0).requests.length ≤ 2 := by
  refine ⟨?_, ?_, (tnet_turn_send_allocate_retry_bound env ctx alloc 0).1⟩
  · intro resp realmS nonceS hresp herr hcode hrealm hnonce hn hfresh
    have h401 : tnet_stun_message_get_errorcode resp = 401 ∧
        (tnet_stun_message_get_realm resp).isSome = true ∧
        (tnet_stun_message_get_nonce resp).isSome = true := by
      simp [hcode, hrealm, hnonce]
    have halloc2 : ({ alloc with
          realm := tnet_stun_message_get_realm resp,
          nonce := tnet_stun_message_get_nonce resp } : tnet_turn_allocation_t) =
        { alloc with realm := some realmS, nonce := some nonceS } := by
      rw [hrealm, hnonce]
    have hn2 : ({ alloc with realm := some realmS, nonce := some nonceS } :
        tnet_turn_allocation_t).nonce ≠ none := by simp
    rw [tnet_turn_send_allocate.eq_def]
    simp only [hd, hresp, herr, if_true, dif_pos h401, dif_pos hn]
    rw [halloc2]
    refine ⟨?_, ?_, ?_, ?_⟩
    · show _ :: (tnet_turn_send_allocate env ctx _ 1).requests = _
      rw [tnet_turn_send_allocate_single env ctx _ 1 hn2]
    · show (tnet_turn_send_allocate env ctx _ 1).allocation.realm = some realmS
      rw [(tnet_turn_send_allocate_keeps_creds env ctx _ 1 hn2).1]
    · show (tnet_turn_send_allocate env ctx _ 1).allocation.nonce = some nonceS
      rw [(tnet_turn_send_allocate_keeps_creds env ctx _ 1 hn2).2]
    · simpa [tnet_turn_send_allocate_build_request] using hfresh
  · intro resp hresp herr hcode hrealm hnonce hn
    rw [tnet_turn_send_allocate.eq_def]
    simp only [hd, hresp, herr, if_true, dif_pos (And.intro hcode (And.intro hrealm hnonce)),
      dif_neg hn]
    simp

/-- C2: for every Allocate call on a non-null context, if the logical round
succeeds then the id of the newly created record (counter + 1, never the
invalid sentinel) is returned, nothing is freed, and the registry is extended
by exactly that record marked active; on any terminal failure of the round the
invalid-id sentinel is returned, the record is handed to the release call, and
the context (hence the registry) is unchanged. -/
theorem turn_allocate_outcome (env : TurnEnv) (counter : Nat)
    (ctx : tnet_nat_context_t) (localFD : Int) (st : tnet_socket_type_t) :
    ((tnet_turn_send_allocate env ctx
        { (tnet_turn_allocation_create counter localFD ctx.socket_type
            ctx.server_address ctx.server_port ctx.username ctx.password).2 with
          software := ctx.software } 0).ret = 0 →
      (tnet_turn_allocate env counter (some ctx) localFD st).id = counter + 1 ∧
      (tnet_turn_allocate env counter (some ctx) localFD st).id ≠
        TNET_TURN_INVALID_ALLOCATION_ID ∧
      (tnet_turn_allocate env counter (some ctx) localFD st).freed = none ∧
      (tnet_turn_allocate env counter (some ctx) localFD st).context =
        some { ctx with allocations := ctx.allocations ++
          [{ (tnet_turn_send_allocate env ctx
              { (tnet_turn_allocation_create counter localFD ctx.socket_type
                  ctx.server_address ctx.server_port ctx.username ctx.password).2 with
                software := ctx.software } 0).allocation with active := true }] } ∧
      ({ (tnet_turn_send_allocate env ctx
          { (tnet_turn_allocation_create counter localFD ctx.socket_type
              ctx.server_address ctx.server_port ctx.username ctx.password).2 with
            software := ctx.software } 0).allocation with
          active := true } : tnet_turn_allocation_t).active = true) ∧
    ((tnet_turn_send_allocate env ctx
        { (tnet_turn_allocation_create counter localFD ctx.socket_type
            ctx.server_address ctx.server_port ctx.username ctx.password).2 with
          software := ctx.software } 0).ret ≠ 0 →
      (tnet_turn_allocate env counter (some ctx) localFD st).id =
        TNET_TURN_INVALID_ALLOCATION_ID ∧
      (tnet_turn_allocate env counter (some ctx) localFD st).freed =
        some (tnet_turn_send_allocate env ctx
          { (tnet_turn_allocation_create counter localFD ctx.socket_type
              ctx.server_address ctx.server_port ctx.username ctx.password).2 with
            software := ctx.software } 0).allocation ∧
      (tnet_turn_allocate env counter (some ctx) localFD st).context = some ctx) := by
  have hframe := (tnet_turn_send_allocate_frame env ctx
    { (tnet_turn_allocation_create counter localFD ctx.socket_type
        ctx.server_address ctx.server_port ctx.username ctx.password).2 with
      software := ctx.software } 0).1
  simp only [tnet_turn_allocation_create] at hframe
  constructor
  · intro h0
    rw [tnet_turn_allocate]
    simp only [h0, ne_eq, not_true_eq_false, if_false]
    simp [hframe, TNET_TURN_INVALID_ALLOCATION_ID, tnet_turn_allocation_create]
  · intro h0
    rw [tnet_turn_allocate]
    simp only [h0, ne_eq, not_false_eq_true, if_true]
    simp

/-- C3: for every Deallocate call on a registered record, the saved timeout is
the pre-call one and the logical round runs on the record with timeout 0; if
the round succeeds the call returns 0 and no record with the id of the given
record remains in the registry; if the round fails the call returns -1, the
final record is the round result with its timeout restored bit-for-bit to the
pre-call value, and that restored record is still in the registry. -/
theorem turn_unallocate_outcome (env : TurnEnv) (ctx : tnet_nat_context_t)
    (alloc : tnet_turn_allocation_t) (hmem : alloc ∈ ctx.allocations) :
    ((tnet_turn_send_allocate env ctx { alloc with timeout := 0 } 0).ret = 0 →
      (tnet_turn_unallocate env (some ctx) (some alloc)).ret = 0 ∧
      ∃ ctx2, (tnet_turn_unallocate env (some ctx) (some alloc)).context = some ctx2 ∧
        ∀ a2 ∈ ctx2.allocations, a2.id ≠ alloc.id) ∧
    ((tnet_turn_send_allocate env ctx { alloc with timeout := 0 } 0).ret ≠ 0 →
      (tnet_turn_unallocate env (some ctx) (some alloc)).ret = -1 ∧
      (tnet_turn_unallocate env (some ctx) (some alloc)).allocation =
        some { (tnet_turn_send_allocate env ctx { alloc with timeout := 0 } 0).allocation with
          timeout := alloc.timeout } ∧
      ({ (tnet_turn_send_allocate env ctx { alloc with timeout := 0 } 0).allocation with
          timeout := alloc.timeout } : tnet_turn_allocation_t).timeout = alloc.timeout ∧
      ∃ ctx2, (tnet_turn_unallocate env (some ctx) (some alloc)).context = some ctx2 ∧
        { (tnet_turn_send_allocate env ctx { alloc with timeout := 0 } 0).allocation with
          timeout := alloc.timeout } ∈ ctx2.allocations) := by
  have hid : (tnet_turn_send_allocate env ctx { alloc with timeout := 0 } 0).allocation.id =
      alloc.id :=
    (tnet_turn_send_allocate_frame env ctx { alloc with timeout := 0 } 0).1
  constructor
  · intro h0
    rw [tnet_turn_unallocate]
    simp only [h0, ne_eq, not_true_eq_false, if_false]
    refine ⟨by simp, _, rfl, ?_⟩
    intro a2 ha2
    have hf := List.of_mem_filter ha2
    simp only [ne_eq, decide_not, Bool.not_eq_true', decide_eq_false_iff_not,
      Decidable.not_not] at hf
    rw [hid] at hf
    exact hf
  · intro h0
    rw [tnet_turn_unallocate]
    simp only [h0, ne_eq, not_false_eq_true, if_true]
    refine ⟨by simp, by simp, by simp, _, rfl, ?_⟩
    refine List.mem_map.2 ⟨alloc, hmem, ?_⟩
    simp [hid]

/-- C4 (amended): when Deallocate fails, the timeout of the record is
restored to its exact pre-call value and every field other than timeout,
realm and nonce is unchanged; the cached realm and nonce, however, are those
left by the failed round (a challenge inside the failed round may have
written them), not the pre-call ones. -/
theorem turn_unallocate_failure_restores (env : TurnEnv) (ctx : tnet_nat_context_t)
    (alloc : tnet_turn_allocation_t)
    (h : (tnet_turn_send_allocate env ctx { alloc with timeout := 0 } 0).ret ≠ 0) :
    (tnet_turn_unallocate env (some ctx) (some alloc)).ret = -1 ∧
    ∃ a2, (tnet_turn_unallocate env (some ctx) (some alloc)).allocation = some a2 ∧
      a2.timeout = alloc.timeout ∧ SameFrame alloc a2 ∧
      a2.realm =
        (tnet_turn_send_allocate env ctx { alloc with timeout := 0 } 0).allocation.realm ∧
      a2.nonce =
        (tnet_turn_send_allocate env ctx { alloc with timeout := 0 } 0).allocation.nonce := by
  have hframe := tnet_turn_send_allocate_frame env ctx { alloc with timeout := 0 } 0
  rw [tnet_turn_unallocate]
  simp only [h, ne_eq, not_false_eq_true, if_true]
  refine ⟨by simp, _, rfl, by simp, ?_, by simp, by simp⟩
  exact sameFrame_trans (sameFrame_trans (sameFrame_timeout alloc 0) hframe)
    (sameFrame_timeout _ alloc.timeout)

theorem tnet_turn_allocate_counter (env : TurnEnv) (counter : Nat)
    (ctx : tnet_nat_context_t) (fd : Int) (st : tnet_socket_type_t) :
    (tnet_turn_allocate env counter (some ctx) fd st).counter = counter + 1 := by
  rw [tnet_turn_allocate]
  split <;> rfl

theorem tnet_turn_allocate_id_cases (env : TurnEnv) (counter : Nat)
    (ctx : tnet_nat_context_t) (fd : Int) (st : tnet_socket_type_t) :
    (tnet_turn_allocate env counter (some ctx) fd st).id = 0 ∨
    (tnet_turn_allocate env counter (some ctx) fd st).id = counter + 1 := by
  have hframe := (tnet_turn_send_allocate_frame env ctx
    { (tnet_turn_allocation_create counter fd ctx.socket_type ctx.server_address
        ctx.server_port ctx.username ctx.password).2 with
      software := ctx.software } 0).1
  rw [tnet_turn_allocate]
  split
  · left
    rfl
  · right
    simpa [tnet_turn_allocation_create] using hframe

theorem runAllocates_ids_bound (calls : List AllocCall) :
    ∀ counter ctx, ∀ i ∈ runAllocates counter ctx calls, i = 0 ∨ counter < i := by
  induction calls with
  | nil =>
    intro counter ctx i hi
    simp [runAllocates] at hi
  | cons c rest ih =>
    intro counter ctx i hi
    rw [runAllocates] at hi
    simp only [List.mem_cons] at hi
    rcases hi with h1 | h2
    · subst h1
      rcases tnet_turn_allocate_id_cases c.env counter ctx c.localFD c.socket_type with h | h
      · exact Or.inl h
      · right
        omega
    · have hb := ih (tnet_turn_allocate c.env counter (some ctx) c.localFD
        c.socket_type).counter
        (((tnet_turn_allocate c.env counter (some ctx) c.localFD c.socket_type).context).getD ctx)
        i h2
      have hc := tnet_turn_allocate_counter c.env counter ctx c.localFD c.socket_type
      rcases hb with h | h
      · exact Or.inl h
      · right
        omega

theorem runAllocates_valid_increasing (calls : List AllocCall) :
    ∀ counter ctx,
      List.Pairwise (· < ·) ((runAllocates counter ctx calls).filter (· != 0)) := by
  induction calls with
  | nil =>
    intro counter ctx
    simp [runAllocates]
  | cons c rest ih =>
    intro counter ctx
    rw [runAllocates]
    rw [List.filter_cons]
    have hc := tnet_turn_allocate_counter c.env counter ctx c.localFD c.socket_type
    split
    · rw [List.pairwise_cons]
      constructor
      · intro b hb
        have hmem := List.mem_of_mem_filter hb
        have hvalid := List.of_mem_filter hb
        have hbound := runAllocates_ids_bound rest
          (tnet_turn_allocate c.env counter (some ctx) c.localFD c.socket_type).counter
          (((tnet_turn_allocate c.env counter (some ctx) c.localFD
            c.socket_type).context).getD ctx) b hmem
        rcases tnet_turn_allocate_id_cases c.env counter ctx c.localFD c.socket_type with
          h | h
        · rename_i hne
          rw [h] at hne
          simp at hne
        · rw [h]
          rcases hbound with hb0 | hbgt
          · rw [hb0] at hvalid
            simp at hvalid
          · omega
      · exact ih _ _
    · exact ih _ _

/-- C6: every record receives its id at creation from the incremented global
counter (id = counter + 1, also the new counter value), the id is never the
zero sentinel, a logical round never alters the id, and across any sequence of
Allocate calls the ids returned by the successful ones (the non-zero ones) are
strictly increasing and therefore never reused. -/
theorem turn_allocation_ids (counter : Nat) (fd : Int) (st : tnet_socket_type_t)
    (sa : String) (sp : Nat) (u pw : Option String) (env : TurnEnv)
    (ctx ctx2 : tnet_nat_context_t) (alloc : tnet_turn_allocation_t) (n : Nat)
    (calls : List AllocCall) :
    (tnet_turn_allocation_create counter fd st sa sp u pw).2.id = counter + 1 ∧
    (tnet_turn_allocation_create counter fd st sa sp u pw).1 = counter + 1 ∧
    counter + 1 ≠ TNET_TURN_INVALID_ALLOCATION_ID ∧
    (tnet_turn_send_allocate env ctx2 alloc n).allocation.id = alloc.id ∧
    List.Pairwise (· < ·) ((runAllocates counter ctx calls).filter (· != 0)) ∧
    ((runAllocates counter ctx calls).filter (· != 0)).Nodup := by
  refine ⟨rfl, rfl, by simp [TNET_TURN_INVALID_ALLOCATION_ID],
    (tnet_turn_send_allocate_frame env ctx2 alloc n).1,
    runAllocates_valid_increasing calls counter ctx, ?_⟩
  exact (runAllocates_valid_increasing calls counter ctx).imp (fun hab => Nat.ne_of_lt hab)

/-- C10: the relay address is absent at creation and no operation writes it:
a logical round changes nothing but timeout, realm and nonce (so the relay
address survives unchanged), the record Deallocate leaves behind keeps the
pre-call relay address, and every record an Allocate call adds to the
registry has an absent relay address. -/
theorem turn_relay_address_never_written (env : TurnEnv) (ctx : tnet_nat_context_t)
    (alloc : tnet_turn_allocation_t) (n counter : Nat) (fd : Int)
    (st : tnet_socket_type_t) (sa : String) (sp : Nat) (u pw : Option String) :
    (tnet_turn_allocation_create counter fd st sa sp u pw).2.relay_address = none ∧
    SameFrame alloc (tnet_turn_send_allocate env ctx alloc n).allocation ∧
    (tnet_turn_send_allocate env ctx alloc n).allocation.relay_address =
      alloc.relay_address ∧
    (∀ a2, (tnet_turn_unallocate env (some ctx) (some alloc)).allocation = some a2 →
      a2.relay_address = alloc.relay_address) ∧
    (∀ ctx2 a2, (tnet_turn_allocate env counter (some ctx) fd st).context = some ctx2 →
      a2 ∈ ctx2.allocations → a2 ∈ ctx.allocations ∨ a2.relay_address = none) := by
  refine ⟨rfl, tnet_turn_send_allocate_frame env ctx alloc n,
    (tnet_turn_send_allocate_frame env ctx alloc n).2.2.2.2.2.2.2.2.2, ?_, ?_⟩
  · intro a2 ha2
    have hrel :=
      (tnet_turn_send_allocate_frame env ctx { alloc with timeout := 0 } 0).2.2.2.2.2.2.2.2.2
    rw [tnet_turn_unallocate] at ha2
    split at ha2 <;> simp only [Option.some.injEq] at ha2 <;> rw [← ha2] <;> simpa using hrel
  · intro ctx2 a2 hctx2 hmem2
    have hrel2 := (tnet_turn_send_allocate_frame env ctx
      { (tnet_turn_allocation_create counter fd ctx.socket_type ctx.server_address
          ctx.server_port ctx.username ctx.password).2 with
        software := ctx.software } 0).2.2.2.2.2.2.2.2.2
    rw [tnet_turn_allocate] at hctx2
    split at hctx2
    · simp only [Option.some.injEq] at hctx2
      rw [← hctx2] at hmem2
      exact Or.inl hmem2
    · simp only [Option.some.injEq] at hctx2
      rw [← hctx2] at hmem2
      simp only [List.mem_append, List.mem_singleton] at hmem2
      rcases hmem2 with h | h
      · exact Or.inl h
      · right
        rw [h]
        simpa [tnet_turn_allocation_create] using hrel2

theorem turn_round_single_retry_witness :
    (tnet_turn_send_allocate envB ctx0 alloc0 0).requests =
      [tnet_turn_send_allocate_build_request envB 0 ctx0 alloc0,
       tnet_turn_send_allocate_build_request envB 1 ctx0
         { alloc0 with realm := some "example.org", nonce := some "abc123" }] ∧
    (tnet_turn_send_allocate envC ctx0 allocStale 0).ret = -3 := by
  constructor
  · exact ((turn_round_single_retry envB ctx0 alloc0 rfl).1 resp401 "example.org" "abc123"
      rfl rfl rfl rfl rfl rfl (by decide)).1
  · exact ((turn_round_single_retry envC ctx0 allocStale rfl).2.1 resp401
      rfl rfl rfl rfl rfl (by simp [allocStale, alloc0])).1

theorem turn_allocate_outcome_witness :
    (tnet_turn_allocate envOk 5 (some ctx0) 7 tnet_socket_type_t.udp).id = 6 ∧
    (tnet_turn_allocate envC 5 (some ctx0) 7 tnet_socket_type_t.udp).id =
      TNET_TURN_INVALID_ALLOCATION_ID := by
  constructor
  · exact ((turn_allocate_outcome envOk 5 ctx0 7 .udp).1
      (by simp [tnet_turn_send_allocate, tnet_turn_allocation_create, envOk, respOk, ctx0,
        TNET_SOCKET_TYPE_IS_DGRAM, TNET_STUN_RESPONSE_IS_ERROR,
        tnet_stun_message_get_lifetime])).1
  · exact ((turn_allocate_outcome envC 5 ctx0 7 .udp).2
      (by simp [tnet_turn_send_allocate, tnet_turn_allocation_create, envC, resp401, ctx0,
        TNET_SOCKET_TYPE_IS_DGRAM, TNET_STUN_RESPONSE_IS_ERROR,
        tnet_stun_message_get_errorcode, tnet_stun_message_get_realm,
        tnet_stun_message_get_nonce])).1

theorem turn_unallocate_outcome_witness :
    (tnet_turn_unallocate envOk (some ctxReg) (some allocReg)).ret = 0 ∧
    (tnet_turn_unallocate envC (some ctxReg) (some allocReg)).ret = -1 := by
  constructor
  · exact ((turn_unallocate_outcome envOk ctxReg allocReg (by simp [ctxReg])).1
      (by simp [tnet_turn_send_allocate, envOk, respOk, allocReg, alloc0,
        TNET_SOCKET_TYPE_IS_DGRAM, TNET_STUN_RESPONSE_IS_ERROR,
        tnet_stun_message_get_lifetime])).1
  · exact ((turn_unallocate_outcome envC ctxReg allocReg (by simp [ctxReg])).2
      (by simp [tnet_turn_send_allocate, envC, resp401, allocReg, alloc0,
        TNET_SOCKET_TYPE_IS_DGRAM, TNET_STUN_RESPONSE_IS_ERROR,
        tnet_stun_message_get_errorcode, tnet_stun_message_get_realm,
        tnet_stun_message_get_nonce])).1

/-- C4 counterexample: a concrete failed Deallocate (both attempts answered
by a 401 with realm and nonce) returns failure yet leaves the record with
realm/nonce changed from their pre-call values: the record is not fully
restored. -/
theorem turn_unallocate_not_fully_restored :
    (tnet_turn_unallocate envC (some ctxReg) (some allocReg)).ret = -1 ∧
    allocReg.nonce = none ∧ allocReg.realm = none ∧
    (tnet_turn_unallocate envC (some ctxReg) (some allocReg)).allocation =
      some { allocReg with realm := some "example.org", nonce := some "abc123" } ∧
    ¬ ((tnet_turn_unallocate envC (some ctxReg) (some allocReg)).allocation =
      some allocReg) := by
  refine ⟨?_, rfl, rfl, ?_, ?_⟩ <;>
    simp [tnet_turn_unallocate, tnet_turn_send_allocate, envC, resp401, ctxReg,
      allocReg, alloc0, TNET_SOCKET_TYPE_IS_DGRAM, TNET_STUN_RESPONSE_IS_ERROR,
      tnet_stun_message_get_errorcode, tnet_stun_message_get_realm,
      tnet_stun_message_get_nonce]

theorem turn_unallocate_failure_restores_witness :
    (tnet_turn_unallocate envC (some ctxReg) (some allocReg)).ret = -1 := by
  exact (turn_unallocate_failure_restores envC ctxReg allocReg
    (by simp [tnet_turn_send_allocate, envC, resp401, allocReg, alloc0,
      TNET_SOCKET_TYPE_IS_DGRAM, TNET_STUN_RESPONSE_IS_ERROR,
      tnet_stun_message_get_errorcode, tnet_stun_message_get_realm,
      tnet_stun_message_get_nonce])).1

theorem turn_round_success_lifetime_witness :
    (tnet_turn_send_allocate envOk ctx0 alloc0 0).ret = 0 ∧
    (tnet_turn_send_allocate envOk ctx0 alloc0 0).allocation.timeout = 3600 ∧
    (tnet_turn_send_allocate envNeg ctx0 alloc0 0).allocation.timeout = alloc0.timeout := by
  refine ⟨(turn_round_success_lifetime envOk ctx0 alloc0 respOk rfl rfl rfl).1,
    (turn_round_success_lifetime envOk ctx0 alloc0 respOk rfl rfl rfl).2.1 (by decide),
    (turn_round_success_lifetime envNeg ctx0 alloc0 respNeg rfl rfl rfl).2.2 (by decide)⟩

theorem turn_round_unsupported_transport_witness :
    tnet_turn_send_allocate envOk ctx0 allocTcp 0 =
      { ret := -1, allocation := allocTcp,
        requests := [tnet_turn_send_allocate_build_request envOk 0 ctx0 allocTcp],
        sends := [] } ∧
    (tnet_turn_send_allocate envOk ctx0 alloc0 0).ret ≠ -1 := by
  exact ⟨(turn_round_unsupported_transport envOk ctx0 allocTcp 0).1 rfl,
    (turn_round_unsupported_transport envOk ctx0 alloc0 0).2 rfl⟩

theorem turn_request_kind_witness :
    (tnet_turn_unallocate envOk (some ctx0) (some allocReg)).requests.head? =
      some (tnet_turn_send_allocate_build_request envOk 0 ctx0
        { allocReg with timeout := 0 }) ∧
    (tnet_turn_send_allocate_build_request envOk 0 ctx0
      { allocReg with timeout := 0 }).type =
        tnet_stun_message_type_t.stun_refresh_request ∧
    request_lifetime_attr (tnet_turn_send_allocate_build_request envOk 0 ctx0
      { allocReg with timeout := 0 }) = some 0 := by
  exact (turn_request_kind envOk 0 ctx0 allocReg).2 rfl

theorem turn_relay_address_never_written_witness :
    ({ allocReg with realm := some "example.org", nonce := some "abc123" } :
      tnet_turn_allocation_t).relay_address = allocReg.relay_address := by
  exact (turn_relay_address_never_written envC ctxReg allocReg 0 0 7
    tnet_socket_type_t.udp "srv" 1 none none).2.2.2.1 _
    (by simp [tnet_turn_unallocate, tnet_turn_send_allocate, envC, resp401, ctxReg,
      allocReg, alloc0, TNET_SOCKET_TYPE_IS_DGRAM, TNET_STUN_RESPONSE_IS_ERROR,
      tnet_stun_message_get_errorcode, tnet_stun_message_get_realm,
      tnet_stun_message_get_nonce])
